import Mathlib

/-!
Verification development for the SpecCraft questionnaire engine and markdown
generator.  The definitions below are a shallow embedding of the TypeScript
sources:

* `src/lib/specification-engine/types.ts` (data model),
* `src/lib/specification-engine/base-questions.ts` (the question catalog),
* `src/lib/specification-engine/questionnaire-engine.ts` (the state machine),
* the `MarkdownGenerator` class (markdown synthesis),
* the generation gate of `SpecCraftMCPServer.generateSpecification` in
  `src/mcp-server/speccraft-server.ts`.

JavaScript runtime values are modelled as follows: an answer value
(`string | boolean | string[]`) becomes the sum type `Value`; `Date`
timestamps become `Nat` values threaded into each mutating operation;
methods that `throw` become functions into `Except String _`.  Strict
equality (`===`) between an answer value and a dependency value is modelled
by `valueEqDep`: values of different runtime type are never strictly equal,
and an array is never strictly equal to a string or boolean.
-/

/-- An answer value: `string | boolean | string[]` in the source. -/
inductive Value where
  | str (s : String)
  | bool (b : Bool)
  | list (l : List String)
deriving DecidableEq, Repr

/-- A dependency rule value: `string | boolean` in the source (`types.ts`). -/
inductive DepValue where
  | str (s : String)
  | bool (b : Bool)
deriving DecidableEq, Repr

/-- JavaScript strict equality (`===`) between a recorded answer value and a
dependency rule value (`questionnaire-engine.ts`, `shouldAskQuestion`). -/
def valueEqDep : Value → DepValue → Bool
  | .str s, .str t => s == t
  | .bool a, .bool b => a == b
  | _, _ => false

/-- JavaScript falsiness of an answer value: `""` and `false` are falsy,
every array (even an empty one) is truthy. -/
def jsFalsy : Value → Bool
  | .str s => s == ""
  | .bool b => !b
  | .list _ => false

/-- `Array.isArray(value) && value.length === 0` on an answer value. -/
def isEmptyList : Value → Bool
  | .list l => l.isEmpty
  | _ => false

/-- The `type` field of a catalog question (`types.ts`). -/
inductive QType where
  | text
  | textarea
  | select
  | multiselect
  | boolean
deriving DecidableEq, Repr

/-- The `category` field of a catalog question (`types.ts`). -/
inductive Category where
  | overview
  | functional
  | technical
  | ui_ux
  | performance
  | security
deriving DecidableEq, Repr

/-- The `dependsOn` rule of a question (`types.ts`). -/
structure DependsOn where
  questionId : String
  value : DepValue
deriving DecidableEq, Repr

/-- A catalog question (`types.ts`, interface `Question`). -/
structure Question where
  id : String
  text : String
  qtype : QType
  required : Bool
  options : Option (List String) := none
  dependsOn : Option DependsOn := none
  category : Category
  order : Nat
deriving DecidableEq, Repr

/-- A recorded answer (`types.ts`, interface `QuestionResponse`). -/
structure QuestionResponse where
  questionId : String
  value : Value
  timestamp : Nat
deriving DecidableEq, Repr

/-- A questionnaire session (`types.ts`, interface `QuestionnaireSession`). -/
structure QuestionnaireSession where
  id : String
  featureTitle : String
  featureDescription : String
  currentQuestionIndex : Nat
  responses : List QuestionResponse
  isComplete : Bool
  createdAt : Nat
  updatedAt : Nat
deriving DecidableEq, Repr

/-- The static question catalog (`base-questions.ts`), in declaration order. -/
def baseQuestions : List Question := [
  { id := "feature-overview",
    text := "Provide a detailed overview of what this feature should accomplish and why it\x27s needed.",
    qtype := .textarea, required := true, category := .overview, order := 1 },
  { id := "target-users",
    text := "Who are the primary users of this feature? Describe the user personas.",
    qtype := .textarea, required := true, category := .overview, order := 2 },
  { id := "business-value",
    text := "What business value or problem does this feature solve?",
    qtype := .textarea, required := true, category := .overview, order := 3 },
  { id := "core-functionality",
    text := "What are the core functions this feature must perform? List each major capability.",
    qtype := .textarea, required := true, category := .functional, order := 10 },
  { id := "user-interactions",
    text := "How will users interact with this feature? Describe the user journey step by step.",
    qtype := .textarea, required := true, category := .functional, order := 11 },
  { id := "data-requirements",
    text := "What data does this feature need to collect, process, or display?",
    qtype := .textarea, required := true, category := .functional, order := 12 },
  { id := "integrations-needed",
    text := "Does this feature need to integrate with any external services, APIs, or existing systems?",
    qtype := .textarea, required := false, category := .functional, order := 13 },
  { id := "ui-requirements",
    text := "Describe the user interface requirements. What should users see and how should it be organized?",
    qtype := .textarea, required := true, category := .ui_ux, order := 20 },
  { id := "responsive-design",
    text := "Does this feature need to work on mobile devices?",
    qtype := .boolean, required := true, category := .ui_ux, order := 21 },
  { id := "accessibility-requirements",
    text := "Are there specific accessibility requirements for this feature?",
    qtype := .textarea, required := false, category := .ui_ux, order := 22 },
  { id := "performance-requirements",
    text := "Are there specific performance requirements (load time, response time, etc.)?",
    qtype := .textarea, required := false, category := .performance, order := 30 },
  { id := "scalability-needs",
    text := "How many users should this feature support? Any specific scalability requirements?",
    qtype := .textarea, required := false, category := .performance, order := 31 },
  { id := "sensitive-data",
    text := "Does this feature handle sensitive or personal data?",
    qtype := .boolean, required := true, category := .security, order := 40 },
  { id := "authentication-required",
    text := "Does this feature require user authentication?",
    qtype := .select, required := true,
    options := some ["No authentication needed", "Optional authentication", "Required authentication", "Admin-only access"],
    category := .security, order := 41 },
  { id := "security-requirements",
    text := "What specific security requirements does this feature have?",
    qtype := .textarea, required := false,
    dependsOn := some { questionId := "sensitive-data", value := .bool true },
    category := .security, order := 42 },
  { id := "error-scenarios",
    text := "What could go wrong with this feature? List potential error scenarios and how they should be handled.",
    qtype := .textarea, required := true, category := .technical, order := 50 },
  { id := "validation-rules",
    text := "What validation rules should be applied to user inputs?",
    qtype := .textarea, required := false, category := .technical, order := 51 },
  { id := "edge-cases",
    text := "What edge cases should be considered (empty states, maximum limits, unusual data, etc.)?",
    qtype := .textarea, required := true, category := .technical, order := 52 },
  { id := "feature-dependencies",
    text := "Does this feature depend on other features being completed first?",
    qtype := .textarea, required := false, category := .technical, order := 60 },
  { id := "timeline-constraints",
    text := "Are there any timeline constraints or deadlines for this feature?",
    qtype := .textarea, required := false, category := .overview, order := 61 },
  { id := "success-criteria",
    text := "How will you know this feature is successful? What are the measurable success criteria?",
    qtype := .textarea, required := true, category := .overview, order := 62 }
]

/-- Insert a question behind every already-placed question of smaller or
equal `order` (the auxiliary step of a stable ascending sort). -/
def insertByOrder (q : Question) : List Question → List Question
  | [] => [q]
  | p :: rest => if p.order ≤ q.order then p :: insertByOrder q rest else q :: p :: rest

/-- `[...baseQuestions].sort((a, b) => a.order - b.order)` — a stable
ascending sort by `order` (JavaScript `Array.prototype.sort` is stable;
any stable comparison sort computes the same list, here insertion sort). -/
def sortQuestionsByOrder : List Question → List Question
  | [] => []
  | q :: rest => insertByOrder q (sortQuestionsByOrder rest)

/-- The engine state: the catalog view plus the session
(`questionnaire-engine.ts`, class fields `questions` and `session`). -/
structure QuestionnaireEngine where
  session : QuestionnaireSession
  questions : List Question
deriving DecidableEq, Repr

namespace QuestionnaireEngine

/-- The constructor of `QuestionnaireEngine`: a fresh session over the
sorted base catalog.  The generated or supplied session id and the `Date`
values are passed in explicitly. -/
def create (featureTitle featureDescription sessionId : String) (now : Nat) :
    QuestionnaireEngine :=
  { questions := sortQuestionsByOrder baseQuestions
    session := {
      id := sessionId
      featureTitle := featureTitle
      featureDescription := featureDescription
      currentQuestionIndex := 0
      responses := []
      isComplete := false
      createdAt := now
      updatedAt := now } }

/-- `shouldAskQuestion`: a question with no dependency is always asked; a
question with a dependency is asked iff the referenced question has a
recorded response whose value is strictly equal (`===`) to the rule value. -/
def shouldAskQuestion (s : QuestionnaireSession) (question : Question) : Bool :=
  match question.dependsOn with
  | some dep =>
    match s.responses.find? (fun r => r.questionId == dep.questionId) with
    | none => false
    | some dependencyResponse => valueEqDep dependencyResponse.value dep.value
  | none => true

/-- `getAvailableQuestions`: the eligible subsequence of the catalog. -/
def getAvailableQuestions (e : QuestionnaireEngine) : List Question :=
  e.questions.filter (shouldAskQuestion e.session)

/-- `getCurrentQuestion`: `availableQuestions[currentQuestionIndex] || null`. -/
def getCurrentQuestion (e : QuestionnaireEngine) : Option Question :=
  (getAvailableQuestions e)[e.session.currentQuestionIndex]?

/-- The session state after the successful part of `answerCurrentQuestion`
has replaced the prior response, appended the new one, advanced the cursor
and stamped `updatedAt` (the local `session` mutations before the
completion check). -/
def answeredSession (e : QuestionnaireEngine) (currentQuestion : Question)
    (value : Value) (now : Nat) : QuestionnaireSession :=
  { e.session with
    responses :=
      (e.session.responses.filter (fun r => r.questionId != currentQuestion.id))
        ++ [{ questionId := currentQuestion.id, value := value, timestamp := now }]
    currentQuestionIndex := e.session.currentQuestionIndex + 1
    updatedAt := now }

/-- The completion check at the end of `answerCurrentQuestion`: the flag is
set exactly when the advanced cursor has reached the end of the freshly
recomputed eligible sequence. -/
def answerRecord (e : QuestionnaireEngine) (currentQuestion : Question)
    (value : Value) (now : Nat) : QuestionnaireEngine :=
  if (answeredSession e currentQuestion value now).currentQuestionIndex ≥
      (getAvailableQuestions
        { e with session := answeredSession e currentQuestion value now }).length then
    { e with session := { answeredSession e currentQuestion value now with isComplete := true } }
  else
    { e with session := answeredSession e currentQuestion value now }

/-- `answerCurrentQuestion(value)`.  Throws when there is no current
question, or when the current question is required and the value is falsy
(`!value`, so `""` and `false`) or an empty array.  On success it replaces
any prior response for the question id, appends the new response, advances
the cursor, stamps `updatedAt`, and sets the completion flag when the new
cursor has reached the end of the freshly recomputed eligible sequence. -/
def answerCurrentQuestion (e : QuestionnaireEngine) (value : Value) (now : Nat) :
    Except String QuestionnaireEngine :=
  match getCurrentQuestion e with
  | none => .error "No current question to answer"
  | some currentQuestion =>
    if currentQuestion.required && (jsFalsy value || isEmptyList value) then
      .error "This question is required"
    else
      .ok (answerRecord e currentQuestion value now)

/-- `goToPreviousQuestion()`: step back one position when possible, clearing
the completion flag; returns whether the cursor moved. -/
def goToPreviousQuestion (e : QuestionnaireEngine) (now : Nat) :
    QuestionnaireEngine × Bool :=
  if e.session.currentQuestionIndex > 0 then
    ({ e with session :=
        { e.session with
          currentQuestionIndex := e.session.currentQuestionIndex - 1
          isComplete := false
          updatedAt := now } }, true)
  else
    (e, false)

/-- `goToQuestion(questionId)`: jump to the position of the question in the
current eligible sequence, clearing the completion flag; returns whether the
question was found. -/
def goToQuestion (e : QuestionnaireEngine) (questionId : String) (now : Nat) :
    QuestionnaireEngine × Bool :=
  match (getAvailableQuestions e).findIdx? (fun q => q.id == questionId) with
  | some questionIndex =>
    ({ e with session :=
        { e.session with
          currentQuestionIndex := questionIndex
          isComplete := false
          updatedAt := now } }, true)
  | none => (e, false)

/-- `getResponse(questionId)`. -/
def getResponse (e : QuestionnaireEngine) (questionId : String) :
    Option QuestionResponse :=
  e.session.responses.find? (fun r => r.questionId == questionId)

/-- The result shape of `getProgress()`. -/
structure Progress where
  current : Nat
  total : Nat
  percentage : Nat
deriving DecidableEq, Repr

/-- `getProgress()`.  `percentage` embeds
`Math.round((current / total) * 100)` over exact rationals:
`⌊(200 * current + total) / (2 * total)⌋`. -/
def getProgress (e : QuestionnaireEngine) : Progress :=
  let availableQuestions := getAvailableQuestions e
  let answeredQuestions := e.session.responses.length
  let total := availableQuestions.length
  { current := min answeredQuestions total
    total := total
    percentage :=
      if total > 0 then (200 * min answeredQuestions total + total) / (2 * total)
      else 0 }

/-- `isComplete()`: returns the stored completion flag. -/
def isComplete (e : QuestionnaireEngine) : Bool :=
  e.session.isComplete

/-- `getSession()`: returns (a copy of) the session. -/
def getSession (e : QuestionnaireEngine) : QuestionnaireSession :=
  e.session

/-- `QuestionnaireEngine.fromSession(session)`: rebuilds an engine over the
sorted base catalog and then replaces its session wholesale with the given
one. -/
def fromSession (session : QuestionnaireSession) : QuestionnaireEngine :=
  { questions := sortQuestionsByOrder baseQuestions, session := session }

/-- `addDynamicQuestion(question)`: splice the question in before the first
catalog entry of strictly greater `order`, appending when there is none. -/
def addDynamicQuestion (e : QuestionnaireEngine) (question : Question) (now : Nat) :
    QuestionnaireEngine :=
  let questions :=
    match e.questions.findIdx? (fun q => q.order > question.order) with
    | none => e.questions ++ [question]
    | some insertIndex =>
      e.questions.take insertIndex ++ [question] ++ e.questions.drop insertIndex
  { e with
    questions := questions
    session := { e.session with updatedAt := now } }

/-- `getUnansweredRequiredQuestions()`: eligible questions that are required
and have no recorded response. -/
def getUnansweredRequiredQuestions (e : QuestionnaireEngine) : List Question :=
  let answeredQuestionIds := e.session.responses.map (fun r => r.questionId)
  (getAvailableQuestions e).filter
    (fun q => q.required && !(answeredQuestionIds.contains q.id))

end QuestionnaireEngine

/-- Convenience for building concrete execution chains: the state after a
successful `answerCurrentQuestion`, the unchanged state on failure. -/
def answerStep (e : QuestionnaireEngine) (value : Value) (now : Nat) :
    QuestionnaireEngine :=
  match e.answerCurrentQuestion value now with
  | .ok e' => e'
  | .error _ => e

/-! ## Markdown generator (`MarkdownGenerator` class) -/

namespace MarkdownGenerator

/-- Whitespace as recognised by the JavaScript `trim` and `\s` for the
characters occurring in this code base. -/
def isWs (c : Char) : Bool :=
  c == ' ' || c == '\t' || c == '\n' || c == '\r'

/-- JavaScript `String.prototype.trim`. -/
def jsTrim (s : String) : String :=
  ⟨((s.data.dropWhile isWs).reverse.dropWhile isWs).reverse⟩

/-- `new Map(responses.map(r => [r.questionId, r]))`: the last entry for a
key wins, so lookup scans the reversed list. -/
def mapGet (responses : List QuestionResponse) (questionId : String) :
    Option QuestionResponse :=
  responses.reverse.find? (fun r => r.questionId == questionId)

/-- `Array.prototype.join(sep)`. -/
def joinSep (sep : String) : List String → String
  | [] => ""
  | [x] => x
  | x :: y :: xs => x ++ sep ++ joinSep sep (y :: xs)

/-- `getResponseValue(questionId)`: `""` when absent, `join(", ")` for an
array value, `String(value)` otherwise. -/
def getResponseValue (responses : List QuestionResponse) (questionId : String) :
    String :=
  match mapGet responses questionId with
  | none => ""
  | some response =>
    match response.value with
    | .list l => joinSep ", " l
    | .str s => s
    | .bool b => if b then "true" else "false"

/-- `String.prototype.toLowerCase` (ASCII, which covers this code base). -/
def toLowerStr (s : String) : String :=
  ⟨s.data.map Char.toLower⟩

/-- Splitting a character list at every character satisfying `p`
(the behaviour of `String.prototype.split` with a character class). -/
def splitChars (p : Char → Bool) : List Char → List Char → List String
  | [], acc => [⟨acc.reverse⟩]
  | c :: rest, acc =>
    if p c then ⟨acc.reverse⟩ :: splitChars p rest []
    else splitChars p rest (c :: acc)

/-- `content.split(/[,\n]/)`. -/
def splitCommaNewline (s : String) : List String :=
  splitChars (fun c => c == ',' || c == '\n') s.data []

/-- `formatSection(title, content)`: nothing when the trimmed content is
empty, otherwise a `##` header followed by the trimmed content. -/
def formatSection (title content : String) : String :=
  if jsTrim content == "" then ""
  else "## " ++ title ++ "\n\n" ++ jsTrim content ++ "\n\n"

/-- The bullet glyphs stripped by `parseListItems` (the source regex is
`/^[-•*]\s*/`; the bullet appears mojibake-encoded in the source file). -/
def isBulletChar (c : Char) : Bool :=
  c == '-' || c == '•' || c == '*'

/-- `item.replace(/^[-•*]\s*/, "")`: strip one leading bullet glyph and the
whitespace after it. -/
def stripBullet (s : String) : String :=
  match s.data with
  | [] => s
  | c :: rest => if isBulletChar c then ⟨rest.dropWhile isWs⟩ else s

/-- `parseListItems(content)`: split on commas and newlines, trim, drop
empties, strip leading bullet glyphs. -/
def parseListItems (content : String) : List String :=
  if content == "" then []
  else
    (((splitCommaNewline content).map jsTrim).filter
      (fun item => item.length > 0)).map stripBullet

/-- `${businessValue || "I can achieve my goals"}`: the so-that clause of a
generated story. -/
def soThatClause (businessValue : String) : String :=
  if businessValue == "" then "I can achieve my goals" else businessValue

/-- The (user × function) cross product loop of `formatUserStories`,
entered only when both answers are truthy. -/
def crossStoriesOf (targetUsers coreFunction soThat : String) : List String :=
  if targetUsers != "" && coreFunction != "" then
    (parseListItems targetUsers).flatMap (fun userType =>
      (parseListItems coreFunction).map (fun func =>
        "As a " ++ toLowerStr userType ++ ", I want " ++ toLowerStr func
          ++ " so that " ++ soThat ++ "."))
  else []

/-- The story list built by `formatUserStories` before bullet rendering:
the cross product, then the generic per-function fallback when no story was
produced and the core-functionality answer is truthy. -/
def userStoriesOf (targetUsers coreFunction soThat : String) : List String :=
  if (crossStoriesOf targetUsers coreFunction soThat).length == 0 && coreFunction != "" then
    crossStoriesOf targetUsers coreFunction soThat
      ++ (parseListItems coreFunction).map (fun func =>
        "As a user, I want " ++ toLowerStr func ++ " so that " ++ soThat ++ ".")
  else crossStoriesOf targetUsers coreFunction soThat

/-- The story list of `formatUserStories` read off the response set. -/
def userStories (responses : List QuestionResponse) : List String :=
  userStoriesOf (getResponseValue responses "target-users")
    (getResponseValue responses "core-functionality")
    (soThatClause (getResponseValue responses "business-value"))

/-- `formatUserStories()`. -/
def formatUserStories (responses : List QuestionResponse) : String :=
  if getResponseValue responses "target-users" == ""
      && getResponseValue responses "core-functionality" == "" then ""
  else joinSep "\n" ((userStories responses).map (fun story => "- " ++ story))

/-- `formatFunctionalRequirements()`. -/
def formatFunctionalRequirements (responses : List QuestionResponse) : String :=
  let coreFunction := getResponseValue responses "core-functionality"
  let userInteractions := getResponseValue responses "user-interactions"
  let dataRequirements := getResponseValue responses "data-requirements"
  let integrations := getResponseValue responses "integrations-needed"
  let requirements :=
    (if coreFunction != "" then
      (parseListItems coreFunction).map (fun f => "The system must " ++ toLowerStr f)
     else [])
    ++ (if userInteractions != "" then ["User interaction flow: " ++ userInteractions] else [])
    ++ (if dataRequirements != "" then ["Data requirements: " ++ dataRequirements] else [])
    ++ (if integrations != "" then ["External integrations: " ++ integrations] else [])
  joinSep "\n" (requirements.map (fun req => "- " ++ req))

/-- `formatEdgeCases()`. -/
def formatEdgeCases (responses : List QuestionResponse) : String :=
  let errorScenarios := getResponseValue responses "error-scenarios"
  let edgeCasesList := getResponseValue responses "edge-cases"
  let validationRules := getResponseValue responses "validation-rules"
  let edgeCases :=
    (if errorScenarios != "" then
      (parseListItems errorScenarios).map (fun e => "Error handling: " ++ e)
     else [])
    ++ (if edgeCasesList != "" then parseListItems edgeCasesList else [])
    ++ (if validationRules != "" then ["Input validation: " ++ validationRules] else [])
  joinSep "\n" (edgeCases.map (fun edge => "- " ++ edge))

/-- `formatUiUxRequirements()`. -/
def formatUiUxRequirements (responses : List QuestionResponse) : String :=
  let uiRequirements := getResponseValue responses "ui-requirements"
  let responsiveDesign := getResponseValue responses "responsive-design"
  let accessibility := getResponseValue responses "accessibility-requirements"
  let requirements :=
    (if uiRequirements != "" then [uiRequirements] else [])
    ++ (if responsiveDesign == "true" then ["Must be responsive and work on mobile devices"] else [])
    ++ (if accessibility != "" then ["Accessibility requirements: " ++ accessibility] else [])
  joinSep "\n\n" requirements

/-- `formatTechnicalConstraints()`. -/
def formatTechnicalConstraints (responses : List QuestionResponse) : String :=
  let performance := getResponseValue responses "performance-requirements"
  let scalability := getResponseValue responses "scalability-needs"
  let authentication := getResponseValue responses "authentication-required"
  let securityReqs := getResponseValue responses "security-requirements"
  let constraints :=
    (if performance != "" then ["Performance: " ++ performance] else [])
    ++ (if scalability != "" then ["Scalability: " ++ scalability] else [])
    ++ (if authentication != "" && authentication != "No authentication needed" then
          ["Authentication: " ++ authentication] else [])
    ++ (if securityReqs != "" then ["Security: " ++ securityReqs] else [])
  joinSep "\n" (constraints.map (fun constraint => "- " ++ constraint))

/-- The three fixed criteria appended by `formatAcceptanceCriteria`. -/
def standardAcceptanceCriteria : List String :=
  ["All user stories must be implemented and tested",
   "Feature must pass all security and performance requirements",
   "User interface must be responsive and accessible"]

/-- The input-derived acceptance criteria pushed before the fixed ones. -/
def derivedAcceptanceCriteria (responses : List QuestionResponse) : List String :=
  let successCriteria := getResponseValue responses "success-criteria"
  let coreFunction := getResponseValue responses "core-functionality"
  (if successCriteria != "" then
    (parseListItems successCriteria).map (fun s => "Success measure: " ++ s)
   else [])
  ++ (if coreFunction != "" then
        (parseListItems coreFunction).map (fun f => "Feature must successfully " ++ toLowerStr f)
      else [])

/-- `formatAcceptanceCriteria()`: derived criteria, then the three standard
criteria, rendered as bullets. -/
def formatAcceptanceCriteria (responses : List QuestionResponse) : String :=
  let criteria := derivedAcceptanceCriteria responses ++ standardAcceptanceCriteria
  joinSep "\n" (criteria.map (fun criterion => "- " ++ criterion))

/-- `formatDependencies()`. -/
def formatDependencies (responses : List QuestionResponse) : String :=
  let featureDeps := getResponseValue responses "feature-dependencies"
  let integrations := getResponseValue responses "integrations-needed"
  let timeline := getResponseValue responses "timeline-constraints"
  let dependencies :=
    (if featureDeps != "" then ["Feature dependencies: " ++ featureDeps] else [])
    ++ (if integrations != "" then ["External service dependencies: " ++ integrations] else [])
    ++ (if timeline != "" then ["Timeline constraints: " ++ timeline] else [])
  joinSep "\n" (dependencies.map (fun dep => "- " ++ dep))

/-- `generateMarkdown(featureTitle)`.  The generation date of the footer is
passed in as `dateStr`. -/
def generateMarkdown (responses : List QuestionResponse)
    (featureTitle dateStr : String) : String :=
  "# Feature: " ++ featureTitle ++ "\n\n"
  ++ formatSection "Overview" (getResponseValue responses "feature-overview")
  ++ formatSection "User Stories" (formatUserStories responses)
  ++ formatSection "Functional Requirements" (formatFunctionalRequirements responses)
  ++ formatSection "Edge Cases" (formatEdgeCases responses)
  ++ formatSection "UI/UX Requirements" (formatUiUxRequirements responses)
  ++ formatSection "Technical Constraints" (formatTechnicalConstraints responses)
  ++ formatSection "Acceptance Criteria" (formatAcceptanceCriteria responses)
  ++ formatSection "Dependencies" (formatDependencies responses)
  ++ "---\n\n"
  ++ "*Generated by SpecCraft on " ++ dateStr ++ "*\n"

end MarkdownGenerator

/-- The generation gate of `SpecCraftMCPServer.generateSpecification`
(`speccraft-server.ts`): rehydrate the engine from the stored session, throw
when the completion flag is unset (reporting the completion percentage),
otherwise produce the markdown document. -/
def generateSpecification (session : QuestionnaireSession) (dateStr : String) :
    Except String String :=
  let engine := QuestionnaireEngine.fromSession session
  if !engine.isComplete then
    .error ("Session is not complete (" ++ toString (engine.getProgress).percentage
      ++ "% done). Continue answering questions first.")
  else
    .ok (MarkdownGenerator.generateMarkdown session.responses session.featureTitle dateStr)

open QuestionnaireEngine MarkdownGenerator

/-- Engine states reachable through the public mutating operations:
construction, successful answers, backward steps, jumps, and dynamic
question insertion. -/
inductive Reachable : QuestionnaireEngine → Prop where
  | create (featureTitle featureDescription sessionId : String) (now : Nat) :
      Reachable (QuestionnaireEngine.create featureTitle featureDescription sessionId now)
  | answer (e : QuestionnaireEngine) (value : Value) (now : Nat)
      (e' : QuestionnaireEngine) :
      Reachable e → e.answerCurrentQuestion value now = .ok e' → Reachable e'
  | previous (e : QuestionnaireEngine) (now : Nat) :
      Reachable e → Reachable (e.goToPreviousQuestion now).1
  | goto (e : QuestionnaireEngine) (questionId : String) (now : Nat) :
      Reachable e → Reachable (e.goToQuestion questionId now).1
  | addDyn (e : QuestionnaireEngine) (question : Question) (now : Nat) :
      Reachable e → Reachable (e.addDynamicQuestion question now)

/-- Engine states reachable without `addDynamicQuestion`. -/
inductive ReachableNav : QuestionnaireEngine → Prop where
  | create (featureTitle featureDescription sessionId : String) (now : Nat) :
      ReachableNav (QuestionnaireEngine.create featureTitle featureDescription sessionId now)
  | answer (e : QuestionnaireEngine) (value : Value) (now : Nat)
      (e' : QuestionnaireEngine) :
      ReachableNav e → e.answerCurrentQuestion value now = .ok e' → ReachableNav e'
  | previous (e : QuestionnaireEngine) (now : Nat) :
      ReachableNav e → ReachableNav (e.goToPreviousQuestion now).1
  | goto (e : QuestionnaireEngine) (questionId : String) (now : Nat) :
      ReachableNav e → ReachableNav (e.goToQuestion questionId now).1

/-! ## Named catalog entries, catalog slices, and concrete execution chains -/

/-- The only base question carrying a dependency rule (order 42). -/
def securityRequirementsQuestion : Question :=
  { id := "security-requirements",
    text := "What specific security requirements does this feature have?",
    qtype := .textarea, required := false,
    dependsOn := some { questionId := "sensitive-data", value := .bool true },
    category := .security, order := 42 }

/-- The last base question (order 62). -/
def successCriteriaQuestion : Question :=
  { id := "success-criteria",
    text := "How will you know this feature is successful? What are the measurable success criteria?",
    qtype := .textarea, required := true, category := .overview, order := 62 }

/-- The 14 catalog questions ordered before `security-requirements`;
none of them has a dependency rule. -/
def basePre : List Question := baseQuestions.take 14

/-- The 6 catalog questions ordered after `security-requirements`;
none of them has a dependency rule. -/
def basePost : List Question := baseQuestions.drop 15

/-- A fresh engine used by the concrete scenarios below. -/
def engineFresh : QuestionnaireEngine :=
  QuestionnaireEngine.create "Demo feature" "Demo description" "session-1" 0

/-- After answering the first question (`feature-overview`). -/
def engineSkipA : QuestionnaireEngine := answerStep engineFresh (Value.str "A tool") 1

/-- After jumping forward to the last eligible question. -/
def engineSkipB : QuestionnaireEngine := (engineSkipA.goToQuestion "success-criteria" 2).1

/-- After answering `success-criteria`: the completion flag is set although
many required questions were skipped. -/
def engineSkipDone : QuestionnaireEngine := answerStep engineSkipB (Value.str "It works") 3

/-- A dependency-free follow-up question with a large order value. -/
def dynamicExtraQuestion : Question :=
  { id := "extra-followup", text := "Is there anything else to capture?",
    qtype := .textarea, required := false, category := .overview, order := 100 }

/-- A completed engine after `addDynamicQuestion` enlarged the eligible
sequence without clearing the stored completion flag. -/
def engineStaleFlag : QuestionnaireEngine :=
  engineSkipDone.addDynamicQuestion dynamicExtraQuestion 4

/-- Jump to the optional `validation-rules` question. -/
def engineValA : QuestionnaireEngine := (engineFresh.goToQuestion "validation-rules" 1).1

/-- Answer `validation-rules`. -/
def engineValB : QuestionnaireEngine :=
  answerStep engineValA (Value.str "positive numbers only") 2

/-- Jump to the last eligible question. -/
def engineValC : QuestionnaireEngine := (engineValB.goToQuestion "success-criteria" 3).1

/-- A completed session whose `edge-cases` and `error-scenarios` answers are
both empty while `validation-rules` is answered. -/
def engineValDone : QuestionnaireEngine := answerStep engineValC (Value.str "works") 4

/-- The engine positioned on the required boolean question `sensitive-data`. -/
def engineSensitive : QuestionnaireEngine := (engineFresh.goToQuestion "sensitive-data" 1).1

/-- A dynamically injected optional boolean question (the Q1 of the
dependency-unlock scenario). -/
def dynFlagQuestion : Question :=
  { id := "dyn-flag", text := "Enable the extra flow?",
    qtype := .boolean, required := false, category := .technical, order := 200 }

/-- A dynamically injected question depending on `dyn-flag = true` (the Q2
of the dependency-unlock scenario). -/
def dynDependentQuestion : Question :=
  { id := "dyn-dependent", text := "Describe the extra flow.",
    qtype := .textarea, required := false,
    dependsOn := some { questionId := "dyn-flag", value := .bool true },
    category := .technical, order := 201 }

/-- Both dynamic questions injected; `dyn-flag` not yet answered. -/
def engineDyn0 : QuestionnaireEngine :=
  (engineFresh.addDynamicQuestion dynFlagQuestion 1).addDynamicQuestion dynDependentQuestion 2

/-- `dyn-flag` answered `true` (via `goToQuestion` + answer). -/
def engineDyn1 : QuestionnaireEngine :=
  answerStep (engineDyn0.goToQuestion "dyn-flag" 3).1 (Value.bool true) 4

/-- `dyn-flag` re-answered `false` (via `goToQuestion` + answer). -/
def engineDyn2 : QuestionnaireEngine :=
  answerStep (engineDyn1.goToQuestion "dyn-flag" 5).1 (Value.bool false) 6

/-- The response set of the cross-product scenario. -/
def c7Responses : List QuestionResponse :=
  [⟨"target-users", Value.str "Admin, Guest", 1⟩,
   ⟨"core-functionality", Value.str "create posts, delete posts", 2⟩]

/-- The recorded answer map of a session: the value of the first response
for a question id, when any. -/
def lookupValue (s : QuestionnaireSession) (questionId : String) : Option Value :=
  (s.responses.find? (fun r => r.questionId == questionId)).map (fun r => r.value)

/-- A comparator following the specification text for the empty-section
claim: the document `generateMarkdown` would produce if the Edge Cases
section did not exist at all. -/
def generateMarkdownWithoutEdgeSection (responses : List QuestionResponse)
    (featureTitle dateStr : String) : String :=
  "# Feature: " ++ featureTitle ++ "\n\n"
  ++ formatSection "Overview" (getResponseValue responses "feature-overview")
  ++ formatSection "User Stories" (formatUserStories responses)
  ++ formatSection "Functional Requirements" (formatFunctionalRequirements responses)
  ++ formatSection "UI/UX Requirements" (formatUiUxRequirements responses)
  ++ formatSection "Technical Constraints" (formatTechnicalConstraints responses)
  ++ formatSection "Acceptance Criteria" (formatAcceptanceCriteria responses)
  ++ formatSection "Dependencies" (formatDependencies responses)
  ++ "---\n\n"
  ++ "*Generated by SpecCraft on " ++ dateStr ++ "*\n"

/-- The state invariant that ties the stored completion flag to the cursor
and the freshly recomputed eligible sequence. -/
def NavInv (e : QuestionnaireEngine) : Prop :=
  e.questions = sortQuestionsByOrder baseQuestions ∧
  e.session.currentQuestionIndex ≤ (getAvailableQuestions e).length ∧
  (e.session.isComplete = true ↔ (getAvailableQuestions e).length ≤ e.session.currentQuestionIndex)

/-- The common shape of the two navigation mutations: cursor repositioned,
completion flag cleared, `updatedAt` stamped. -/
def withCursor (e : QuestionnaireEngine) (i : Nat) (now : Nat) : QuestionnaireEngine :=
  { e with session :=
      { e.session with
        currentQuestionIndex := i
        isComplete := false
        updatedAt := now } }

/-- A session whose answers were recorded in one order. -/
def sessionOrderA : QuestionnaireSession :=
  { id := "a", featureTitle := "F", featureDescription := "D",
    currentQuestionIndex := 5,
    responses := [⟨"sensitive-data", Value.bool true, 1⟩, ⟨"feature-overview", Value.str "x", 2⟩],
    isComplete := false, createdAt := 0, updatedAt := 2 }

/-- The same answer map recorded in the opposite order with other
timestamps and cursor. -/
def sessionOrderB : QuestionnaireSession :=
  { id := "b", featureTitle := "F", featureDescription := "D",
    currentQuestionIndex := 2,
    responses := [⟨"feature-overview", Value.str "x", 7⟩, ⟨"sensitive-data", Value.bool true, 9⟩],
    isComplete := false, createdAt := 5, updatedAt := 9 }

/-! ## Helper lemmas -/

theorem sortedBase_eq : sortQuestionsByOrder baseQuestions = baseQuestions := rfl

theorem base_decomp :
    baseQuestions = basePre ++ [securityRequirementsQuestion] ++ basePost := rfl

theorem shouldAsk_of_no_dep (s : QuestionnaireSession) (q : Question)
    (hd : q.dependsOn = none) : shouldAskQuestion s q = true := by
  unfold QuestionnaireEngine.shouldAskQuestion
  rw [hd]

theorem filter_base_struct (s : QuestionnaireSession) :
    baseQuestions.filter (shouldAskQuestion s) =
      basePre
        ++ (if shouldAskQuestion s securityRequirementsQuestion
            then [securityRequirementsQuestion] else [])
        ++ basePost := by
  conv_lhs => rw [base_decomp]
  rw [List.filter_append, List.filter_append]
  have h1 : basePre.filter (shouldAskQuestion s) = basePre :=
    List.filter_eq_self.mpr (by
      intro x hx
      refine shouldAsk_of_no_dep s x ?_
      fin_cases hx <;> rfl)
  have h3 : basePost.filter (shouldAskQuestion s) = basePost :=
    List.filter_eq_self.mpr (by
      intro x hx
      refine shouldAsk_of_no_dep s x ?_
      fin_cases hx <;> rfl)
  have h2 : [securityRequirementsQuestion].filter (shouldAskQuestion s) =
      if shouldAskQuestion s securityRequirementsQuestion
      then [securityRequirementsQuestion] else [] := by
    cases h : shouldAskQuestion s securityRequirementsQuestion <;>
      simp [List.filter_cons, h]
  rw [h1, h2, h3]

theorem avail_length_base (s : QuestionnaireSession) :
    (baseQuestions.filter (shouldAskQuestion s)).length =
      if shouldAskQuestion s securityRequirementsQuestion then 21 else 20 := by
  rw [filter_base_struct]
  split <;> rfl

theorem find?_filter_append {α : Type} (p keep : α → Bool) (l : List α) (a : α)
    (hk : ∀ x, p x = true → keep x = true) (ha : p a = false) :
    ((l.filter keep) ++ [a]).find? p = l.find? p := by
  induction l with
  | nil => simp [List.find?, ha]
  | cons x xs ih =>
    rw [List.filter_cons]
    by_cases hp : p x = true
    · rw [if_pos (hk x hp)]
      simp [List.find?, hp]
    · have hp' : p x = false := by simpa using hp
      by_cases hkx : keep x = true
      · rw [if_pos hkx]
        simpa [List.find?, hp'] using ih
      · rw [if_neg hkx]
        simpa [List.find?, hp'] using ih

theorem shouldAsk_sec_congr {s₁ s₂ : QuestionnaireSession}
    (h : s₁.responses.find? (fun r => r.questionId == "sensitive-data") =
         s₂.responses.find? (fun r => r.questionId == "sensitive-data")) :
    shouldAskQuestion s₁ securityRequirementsQuestion =
      shouldAskQuestion s₂ securityRequirementsQuestion := by
  simp only [QuestionnaireEngine.shouldAskQuestion, securityRequirementsQuestion]
  rw [h]

theorem findIdx?_some_lt_aux {α : Type} (p : α → Bool) :
    ∀ (l : List α) (start i : Nat), List.findIdx? p l start = some i →
      i < start + l.length := by
  intro l
  induction l with
  | nil => intro start i h; simp [List.findIdx?] at h
  | cons x xs ih =>
    intro start i h
    rw [show List.findIdx? p (x :: xs) start
        = if p x then some start else List.findIdx? p xs (start + 1) from rfl] at h
    by_cases hp : p x = true
    · rw [if_pos hp] at h
      cases h
      simp
    · rw [if_neg hp] at h
      have := ih (start + 1) i h
      simp only [List.length_cons]
      omega

theorem findIdx?_some_lt {α : Type} (p : α → Bool) (l : List α) (i : Nat)
    (h : l.findIdx? p = some i) : i < l.length := by
  have := findIdx?_some_lt_aux p l 0 i h
  omega

theorem goToPreviousQuestion_fields (e : QuestionnaireEngine) (now : Nat) :
    ((e.goToPreviousQuestion now).1).questions = e.questions ∧
    ((e.goToPreviousQuestion now).1).session.responses = e.session.responses := by
  unfold QuestionnaireEngine.goToPreviousQuestion
  split <;> exact ⟨rfl, rfl⟩

theorem goToQuestion_fields (e : QuestionnaireEngine) (questionId : String) (now : Nat) :
    ((e.goToQuestion questionId now).1).questions = e.questions ∧
    ((e.goToQuestion questionId now).1).session.responses = e.session.responses := by
  unfold QuestionnaireEngine.goToQuestion
  cases h : (getAvailableQuestions e).findIdx? (fun q => q.id == questionId) <;>
    simp [h]

theorem addDynamicQuestion_responses (e : QuestionnaireEngine) (q : Question) (now : Nat) :
    ((e.addDynamicQuestion q now)).session.responses = e.session.responses := rfl

theorem answerRecord_fields (e : QuestionnaireEngine) (q : Question) (v : Value) (now : Nat) :
    (answerRecord e q v now).questions = e.questions ∧
    (answerRecord e q v now).session.currentQuestionIndex = e.session.currentQuestionIndex + 1 ∧
    (answerRecord e q v now).session.responses =
      (e.session.responses.filter (fun r => r.questionId != q.id))
        ++ [⟨q.id, v, now⟩] := by
  unfold QuestionnaireEngine.answerRecord
  split <;> exact ⟨rfl, rfl, rfl⟩

theorem answerRecord_isComplete (e : QuestionnaireEngine) (q : Question) (v : Value) (now : Nat) :
    (answerRecord e q v now).session.isComplete =
      (if (getAvailableQuestions (answerRecord e q v now)).length ≤ e.session.currentQuestionIndex + 1
       then true else e.session.isComplete) := by
  unfold QuestionnaireEngine.answerRecord
  split
  case isTrue hc =>
    split
    · rfl
    case isFalse hC => exact absurd hc hC
  case isFalse hc =>
    split
    case isTrue hC => exact absurd hC hc
    · rfl

theorem answer_ok_inv {e : QuestionnaireEngine} {v : Value} {now : Nat}
    {e' : QuestionnaireEngine}
    (h : e.answerCurrentQuestion v now = .ok e') :
    ∃ q, e.getCurrentQuestion = some q ∧
      (q.required && (jsFalsy v || isEmptyList v)) = false ∧
      e' = answerRecord e q v now := by
  unfold QuestionnaireEngine.answerCurrentQuestion at h
  split at h
  · exact absurd h (by simp)
  case h_2 q heq =>
    split at h
    · exact absurd h (by simp)
    case isFalse hreq =>
      rw [Except.ok.injEq] at h
      exact ⟨q, heq, by simpa using hreq, h.symm⟩

/-! ## Reachability of the concrete scenario states -/

theorem reachable_engineFresh : Reachable engineFresh :=
  Reachable.create "Demo feature" "Demo description" "session-1" 0

theorem reachable_engineSkipDone : Reachable engineSkipDone :=
  Reachable.answer engineSkipB (Value.str "It works") 3 engineSkipDone
    (Reachable.goto engineSkipA "success-criteria" 2
      (Reachable.answer engineFresh (Value.str "A tool") 1 engineSkipA
        reachable_engineFresh (by rfl)))
    (by rfl)

theorem reachable_engineStaleFlag : Reachable engineStaleFlag :=
  Reachable.addDyn engineSkipDone dynamicExtraQuestion 4 reachable_engineSkipDone

theorem reachable_engineValDone : Reachable engineValDone :=
  Reachable.answer engineValC (Value.str "works") 4 engineValDone
    (Reachable.goto engineValB "success-criteria" 3
      (Reachable.answer engineValA (Value.str "positive numbers only") 2 engineValB
        (Reachable.goto engineFresh "validation-rules" 1 reachable_engineFresh)
        (by rfl)))
    (by rfl)

theorem reachable_engineSensitive : Reachable engineSensitive :=
  Reachable.goto engineFresh "sensitive-data" 1 reachable_engineFresh

theorem reachable_engineDyn0 : Reachable engineDyn0 :=
  Reachable.addDyn _ dynDependentQuestion 2
    (Reachable.addDyn engineFresh dynFlagQuestion 1 reachable_engineFresh)

theorem reachable_engineDyn1 : Reachable engineDyn1 :=
  Reachable.answer (engineDyn0.goToQuestion "dyn-flag" 3).1 (Value.bool true) 4 engineDyn1
    (Reachable.goto engineDyn0 "dyn-flag" 3 reachable_engineDyn0)
    (by rfl)

theorem reachable_engineDyn2 : Reachable engineDyn2 :=
  Reachable.answer (engineDyn1.goToQuestion "dyn-flag" 5).1 (Value.bool false) 6 engineDyn2
    (Reachable.goto engineDyn1 "dyn-flag" 5 reachable_engineDyn1)
    (by rfl)

theorem reachableNav_engineSkipDone : ReachableNav engineSkipDone :=
  ReachableNav.answer engineSkipB (Value.str "It works") 3 engineSkipDone
    (ReachableNav.goto engineSkipA "success-criteria" 2
      (ReachableNav.answer engineFresh (Value.str "A tool") 1 engineSkipA
        (ReachableNav.create "Demo feature" "Demo description" "session-1" 0) (by rfl)))
    (by rfl)

/-! ## Claim theorems -/

/-- Claim C10: rehydration via `fromSession` rebuilds the engine over the
sorted base catalog only, dropping dynamically added questions, while
carrying over the stored session (responses, cursor, completion flag)
unchanged; the eligible sequence of the rehydrated engine is therefore
computed over the base questions only, as witnessed by a dynamic question
that is eligible before serialisation and absent afterwards. -/
theorem spec_c10_fromSession_base_catalog :
    (∀ s : QuestionnaireSession,
      (QuestionnaireEngine.fromSession s).questions = sortQuestionsByOrder baseQuestions ∧
      (QuestionnaireEngine.fromSession s).session = s) ∧
    dynFlagQuestion ∈ getAvailableQuestions engineDyn0 ∧
    dynFlagQuestion ∉ getAvailableQuestions (QuestionnaireEngine.fromSession engineDyn0.getSession) ∧
    (QuestionnaireEngine.fromSession engineDyn0.getSession).session = engineDyn0.session := by
  refine ⟨fun s => ⟨rfl, rfl⟩, by decide, by decide, rfl⟩

/-- Witness for C10: the rehydrated catalog of a concrete session is the
sorted base catalog. -/
theorem spec_c10_witness :
    (QuestionnaireEngine.fromSession sessionOrderA).questions = sortQuestionsByOrder baseQuestions :=
  (spec_c10_fromSession_base_catalog.1 sessionOrderA).1

/-- Claim C2 (code bug): on the reachable state whose current question is
the required boolean question `sensitive-data`, answering with the boolean
`false` is rejected with the required-question validation error — the
JavaScript truthiness check `!value` treats `false` as empty — while the
boolean `true` is accepted.  The claim says a boolean `false` answer to a
required boolean question must succeed. -/
theorem spec_c2_required_boolean_false_bug :
    Reachable engineSensitive ∧
    (engineSensitive.getCurrentQuestion).map (fun q => (q.id, q.required, q.qtype))
      = some ("sensitive-data", true, QType.boolean) ∧
    engineSensitive.answerCurrentQuestion (Value.bool false) 2
      = .error "This question is required" ∧
    engineSensitive.answerCurrentQuestion (Value.bool true) 2
      = .ok (answerStep engineSensitive (Value.bool true) 2) :=
  ⟨reachable_engineSensitive, by rfl, by rfl, by rfl⟩

/-- Counterexample for C1: a session reachable through the engine
operations (answer the first question, jump to the last eligible question,
answer it) has eleven eligible required questions without a recorded
answer, yet `generateSpecification` succeeds and produces the document,
because the code gates generation on the stored completion flag only. -/
theorem spec_c1_counterexample :
    Reachable engineSkipDone ∧
    engineSkipDone.getUnansweredRequiredQuestions ≠ [] ∧
    generateSpecification engineSkipDone.getSession "2025-01-01"
      = .ok (generateMarkdown engineSkipDone.session.responses "Demo feature" "2025-01-01") :=
  ⟨reachable_engineSkipDone, by decide, by rfl⟩

/-- Claim C1 (amended): `generateSpecification` fails — with the
precondition error reporting the completion percentage, producing no
document — exactly when the session completion flag is false; when the
flag is set it produces the markdown document.  (The code does not
re-check `getUnansweredRequiredQuestions()`.) -/
theorem spec_c1_generate_gate_amended (s : QuestionnaireSession) (dateStr : String) :
    ((∃ msg, generateSpecification s dateStr = .error msg) ↔ s.isComplete = false) ∧
    (s.isComplete = false →
      generateSpecification s dateStr =
        .error ("Session is not complete ("
          ++ toString ((QuestionnaireEngine.fromSession s).getProgress).percentage
          ++ "% done). Continue answering questions first.")) ∧
    (s.isComplete = true →
      generateSpecification s dateStr =
        .ok (generateMarkdown s.responses s.featureTitle dateStr)) := by
  unfold generateSpecification
  cases hc : s.isComplete <;>
    simp [QuestionnaireEngine.isComplete, QuestionnaireEngine.fromSession, hc]

/-- Witness for C1 (amended): a fresh session has the flag unset and
generation fails with the percentage-bearing error. -/
theorem spec_c1_generate_gate_witness :
    engineFresh.getSession.isComplete = false ∧
    generateSpecification engineFresh.getSession "2025-01-01"
      = .error ("Session is not complete ("
          ++ toString ((QuestionnaireEngine.fromSession engineFresh.getSession).getProgress).percentage
          ++ "% done). Continue answering questions first.") :=
  ⟨rfl, (spec_c1_generate_gate_amended engineFresh.getSession "2025-01-01").2.1 rfl⟩

/-! ## User story synthesis lemmas -/

theorem flatMap_length_const {α β : Type} (l : List α) (f : α → List β) (k : Nat)
    (hf : ∀ a, (f a).length = k) : (l.flatMap f).length = l.length * k := by
  induction l with
  | nil => simp
  | cons x xs ih => simp [List.flatMap_cons, hf, ih, Nat.succ_mul, Nat.add_comm]

theorem crossStoriesOf_eq (tu cf so : String) (h1 : tu ≠ "") (h2 : cf ≠ "") :
    crossStoriesOf tu cf so =
      (parseListItems tu).flatMap (fun userType =>
        (parseListItems cf).map (fun func =>
          "As a " ++ toLowerStr userType ++ ", I want " ++ toLowerStr func
            ++ " so that " ++ so ++ ".")) := by
  unfold crossStoriesOf
  rw [if_pos (by simp [h1, h2])]

theorem crossStoriesOf_length (tu cf so : String) (h1 : tu ≠ "") (h2 : cf ≠ "") :
    (crossStoriesOf tu cf so).length =
      (parseListItems tu).length * (parseListItems cf).length := by
  rw [crossStoriesOf_eq tu cf so h1 h2]
  exact flatMap_length_const _ _ _ (fun a => by simp)

theorem userStoriesOf_cross (tu cf so : String) (h1 : tu ≠ "") (h2 : cf ≠ "")
    (h3 : parseListItems tu ≠ []) :
    userStoriesOf tu cf so = crossStoriesOf tu cf so ∧
    (userStoriesOf tu cf so).length =
      (parseListItems tu).length * (parseListItems cf).length := by
  have hlen := crossStoriesOf_length tu cf so h1 h2
  have hmain : userStoriesOf tu cf so = crossStoriesOf tu cf so := by
    unfold userStoriesOf
    cases hpf : parseListItems cf with
    | nil =>
      rw [if_pos (by simp [hlen, hpf, h2])]
      simp [hpf]
    | cons f fs =>
      rw [if_neg ?_]
      simp only [Bool.and_eq_true, beq_iff_eq, not_and]
      intro hz
      rw [hlen, hpf] at hz
      rcases Nat.mul_eq_zero.mp hz with hl | hr
      · exact absurd (List.length_eq_zero.mp hl) h3
      · simp at hr
  exact ⟨hmain, hmain ▸ hlen⟩

theorem userStoriesOf_fallback (tu cf so : String) (h2 : cf ≠ "")
    (h3 : parseListItems tu = []) :
    userStoriesOf tu cf so =
      (parseListItems cf).map (fun func =>
        "As a user, I want " ++ toLowerStr func ++ " so that " ++ so ++ ".") := by
  have hcross : crossStoriesOf tu cf so = [] := by
    unfold crossStoriesOf
    split
    · rw [h3]; rfl
    · rfl
  unfold userStoriesOf
  rw [hcross]
  rw [if_pos (by simp [h2])]
  simp

theorem userStoriesOf_empty_cf (tu cf so : String) (h : cf = "") :
    userStoriesOf tu cf so = [] := by
  have hcross : crossStoriesOf tu cf so = [] := by
    unfold crossStoriesOf
    rw [if_neg (by simp [h])]
  unfold userStoriesOf
  rw [hcross, if_neg (by simp [h])]

/-- Claim C7: user-story synthesis generates the full (user × function)
cross product — one story per pair, in the fixed template — whenever both
answers are truthy and the parsed user list is non-empty; it falls back to
one generic story per function when the parsed user list is empty; it
produces nothing when the core-functionality answer is empty; and on the
Admin/Guest × create/delete scenario it emits exactly the four expected
bullet lines. -/
theorem spec_c7_user_story_cross_product (responses : List QuestionResponse) :
    ((getResponseValue responses "target-users" ≠ "" →
      getResponseValue responses "core-functionality" ≠ "" →
      parseListItems (getResponseValue responses "target-users") ≠ [] →
      userStories responses =
        (parseListItems (getResponseValue responses "target-users")).flatMap (fun userType =>
          (parseListItems (getResponseValue responses "core-functionality")).map (fun func =>
            "As a " ++ toLowerStr userType ++ ", I want " ++ toLowerStr func ++ " so that "
              ++ soThatClause (getResponseValue responses "business-value") ++ ".")) ∧
      (userStories responses).length =
        (parseListItems (getResponseValue responses "target-users")).length *
          (parseListItems (getResponseValue responses "core-functionality")).length) ∧
    (getResponseValue responses "core-functionality" ≠ "" →
      parseListItems (getResponseValue responses "target-users") = [] →
      userStories responses =
        (parseListItems (getResponseValue responses "core-functionality")).map (fun func =>
          "As a user, I want " ++ toLowerStr func ++ " so that "
            ++ soThatClause (getResponseValue responses "business-value") ++ ".")) ∧
    (getResponseValue responses "core-functionality" = "" →
      formatUserStories responses = "")) ∧
    formatUserStories c7Responses =
      "- As a admin, I want create posts so that I can achieve my goals.\n"
      ++ "- As a admin, I want delete posts so that I can achieve my goals.\n"
      ++ "- As a guest, I want create posts so that I can achieve my goals.\n"
      ++ "- As a guest, I want delete posts so that I can achieve my goals." := by
  refine ⟨⟨?_, ?_, ?_⟩, by rfl⟩
  · intro h1 h2 h3
    have := userStoriesOf_cross (getResponseValue responses "target-users")
      (getResponseValue responses "core-functionality")
      (soThatClause (getResponseValue responses "business-value")) h1 h2 h3
    refine ⟨?_, this.2⟩
    rw [show userStories responses = userStoriesOf _ _ _ from rfl, this.1,
      crossStoriesOf_eq _ _ _ h1 h2]
  · intro h2 h3
    exact userStoriesOf_fallback _ _ _ h2 h3
  · intro h
    unfold formatUserStories
    by_cases htu : getResponseValue responses "target-users" = ""
    · rw [if_pos (by simp [htu, h])]
    · rw [if_neg (by simp [htu])]
      rw [show userStories responses = userStoriesOf _ _ _ from rfl,
        userStoriesOf_empty_cf _ _ _ h]
      rfl

/-- Witness for C7: on the concrete scenario the hypotheses hold and the
story count is `2 × 2`. -/
theorem spec_c7_witness :
    (userStories c7Responses).length = 2 * 2 ∧
    parseListItems (getResponseValue c7Responses "target-users") = ["Admin", "Guest"] ∧
    parseListItems (getResponseValue c7Responses "core-functionality")
      = ["create posts", "delete posts"] := by
  refine ⟨?_, by rfl, by rfl⟩
  have h := ((spec_c7_user_story_cross_product c7Responses).1.1
    (by decide) (by decide) (by decide)).2
  rw [h]
  rfl

theorem shouldAsk_some_dep (s : QuestionnaireSession) (q : Question) (dep : DependsOn)
    (hdep : q.dependsOn = some dep) :
    shouldAskQuestion s q =
      (match s.responses.find? (fun r => r.questionId == dep.questionId) with
       | none => false
       | some r => valueEqDep r.value dep.value) := by
  unfold QuestionnaireEngine.shouldAskQuestion
  rw [hdep]

/-- Claim C6: for a fixed catalog, the eligible-question sequence is a
function of the recorded (questionId → value) answer map only — two
engines over the same catalog whose sessions agree on the looked-up value
of every question id compute identical `getAvailableQuestions()` results,
regardless of the order, timestamps, or cursor with which the answers were
recorded. -/
theorem spec_c6_eligibility_answer_map (e₁ e₂ : QuestionnaireEngine)
    (hq : e₁.questions = e₂.questions)
    (h : ∀ questionId, lookupValue e₁.session questionId = lookupValue e₂.session questionId) :
    getAvailableQuestions e₁ = getAvailableQuestions e₂ := by
  unfold QuestionnaireEngine.getAvailableQuestions
  rw [hq]
  refine List.filter_congr ?_
  intro q _
  cases hdep : q.dependsOn with
  | none => rw [shouldAsk_of_no_dep _ _ hdep, shouldAsk_of_no_dep _ _ hdep]
  | some dep =>
    rw [shouldAsk_some_dep _ _ _ hdep, shouldAsk_some_dep _ _ _ hdep]
    have hv := h dep.questionId
    simp only [lookupValue] at hv
    cases h1 : e₁.session.responses.find? (fun r => r.questionId == dep.questionId) with
    | none =>
      cases h2 : e₂.session.responses.find? (fun r => r.questionId == dep.questionId) with
      | none => rfl
      | some r2 => rw [h1, h2] at hv; simp at hv
    | some r1 =>
      cases h2 : e₂.session.responses.find? (fun r => r.questionId == dep.questionId) with
      | none => rw [h1, h2] at hv; simp at hv
      | some r2 =>
        rw [h1, h2] at hv
        simp at hv
        simp [hv]

/-- Witness for C6: two sessions recording the same two answers in
opposite order with different timestamps and cursors have the same
eligible sequence. -/
theorem spec_c6_witness :
    getAvailableQuestions (QuestionnaireEngine.fromSession sessionOrderA)
      = getAvailableQuestions (QuestionnaireEngine.fromSession sessionOrderB) := by
  refine spec_c6_eligibility_answer_map _ _ rfl ?_
  intro questionId
  simp only [lookupValue, QuestionnaireEngine.fromSession, sessionOrderA, sessionOrderB,
    List.find?]
  cases h1 : (("sensitive-data" : String) == questionId) <;>
    cases h2 : (("feature-overview" : String) == questionId) <;>
      simp [h1, h2]
  exact absurd ((eq_of_beq h1).trans (eq_of_beq h2).symm) (by decide)

/-! ## String and section lemmas -/

theorem mem_dropWhile_of_mem {α : Type} (p : α → Bool) (x : α) (hx : p x = false) :
    ∀ l : List α, x ∈ l → x ∈ l.dropWhile p := by
  intro l
  induction l with
  | nil => intro h; cases h
  | cons a t ih =>
    intro h
    rw [List.dropWhile_cons]
    by_cases hp : p a = true
    · rw [if_pos hp]
      cases h with
      | head => rw [hp] at hx; cases hx
      | tail _ ht => exact ih ht
    · rw [if_neg hp]; exact h

theorem jsTrim_ne_empty {s : String} {c : Char} (hc : c ∈ s.data) (hw : isWs c = false) :
    jsTrim s ≠ "" := by
  intro h
  have hdata : ((s.data.dropWhile isWs).reverse.dropWhile isWs).reverse = ([] : List Char) :=
    congrArg String.data h
  rw [List.reverse_eq_nil_iff] at hdata
  have h1 : c ∈ s.data.dropWhile isWs := mem_dropWhile_of_mem _ _ hw _ hc
  have h2 : c ∈ (s.data.dropWhile isWs).reverse := List.mem_reverse.mpr h1
  have h3 : c ∈ (s.data.dropWhile isWs).reverse.dropWhile isWs := mem_dropWhile_of_mem _ _ hw _ h2
  rw [hdata] at h3
  cases h3

theorem dash_mem_joinSep (sep x : String) (xs : List String) :
    '-' ∈ (joinSep sep (("- " ++ x) :: xs)).data := by
  have hdash : '-' ∈ ("- " : String).data := by decide
  cases xs with
  | nil =>
    rw [show joinSep sep ["- " ++ x] = "- " ++ x from rfl, String.data_append]
    exact List.mem_append.mpr (Or.inl hdash)
  | cons y ys =>
    rw [show joinSep sep (("- " ++ x) :: y :: ys)
        = "- " ++ x ++ sep ++ joinSep sep (y :: ys) from rfl]
    simp only [String.data_append, List.mem_append]
    exact Or.inl (Or.inl (Or.inl hdash))

theorem formatAcceptanceCriteria_trim_ne (responses : List QuestionResponse) :
    jsTrim (formatAcceptanceCriteria responses) ≠ "" := by
  have heq : formatAcceptanceCriteria responses =
      joinSep "\n" ((derivedAcceptanceCriteria responses
        ++ standardAcceptanceCriteria).map (fun c => "- " ++ c)) := rfl
  rw [heq]
  refine jsTrim_ne_empty (c := '-') ?_ (by decide)
  cases hd : derivedAcceptanceCriteria responses with
  | nil =>
    simp only [List.nil_append]
    have hstd : standardAcceptanceCriteria.map (fun c => "- " ++ c)
        = ("- " ++ "All user stories must be implemented and tested")
          :: ["- Feature must pass all security and performance requirements",
              "- User interface must be responsive and accessible"] := by rfl
    rw [hstd]
    exact dash_mem_joinSep "\n" _ _
  | cons d ds =>
    simp only [List.cons_append, List.map_cons]
    exact dash_mem_joinSep "\n" d _

theorem str_append_empty (s : String) : s ++ "" = s :=
  String.ext (by simp [String.data_append])

theorem append_ne_empty_left (x y : String) (hx : x ≠ "") : x ++ y ≠ "" := by
  intro h
  have hdata : x.data ++ y.data = [] := by
    have := congrArg String.data h
    rwa [String.data_append] at this
  exact hx (String.ext (List.append_eq_nil.mp hdata).1)

theorem formatSection_eq_empty_iff (title content : String) :
    formatSection title content = "" ↔ jsTrim content = "" := by
  unfold formatSection
  cases hc : (jsTrim content == "") with
  | true => simp [eq_of_beq hc]
  | false =>
    rw [if_neg (by simp [hc])]
    constructor
    · intro h
      exact absurd h (append_ne_empty_left _ _ (by
        refine append_ne_empty_left _ _ ?_
        refine append_ne_empty_left _ _ ?_
        refine append_ne_empty_left _ _ ?_
        intro hcon
        exact absurd (congrArg String.data hcon) (by decide)))
    · intro h
      exact absurd h (by simpa using hc)

theorem formatSection_of_ne (title content : String) (h : jsTrim content ≠ "") :
    formatSection title content
      = "## " ++ title ++ "\n\n" ++ jsTrim content ++ "\n\n" := by
  unfold formatSection
  rw [if_neg (by simpa using h)]

/-- Claim C9: the acceptance-criteria list is always the input-derived
criteria followed by the three fixed boilerplate criteria, so the rendered
section body is never empty after trimming, and every generated markdown
document contains the `## Acceptance Criteria` header. -/
theorem spec_c9_acceptance_always_present (responses : List QuestionResponse)
    (featureTitle dateStr : String) :
    formatAcceptanceCriteria responses =
      joinSep "\n" ((derivedAcceptanceCriteria responses
        ++ standardAcceptanceCriteria).map (fun criterion => "- " ++ criterion)) ∧
    jsTrim (formatAcceptanceCriteria responses) ≠ "" ∧
    ("## Acceptance Criteria").data
      <:+: (generateMarkdown responses featureTitle dateStr).data := by
  refine ⟨rfl, formatAcceptanceCriteria_trim_ne responses, ?_⟩
  have hfs : formatSection "Acceptance Criteria" (formatAcceptanceCriteria responses)
      = "## " ++ "Acceptance Criteria" ++ "\n\n"
        ++ jsTrim (formatAcceptanceCriteria responses) ++ "\n\n" :=
    formatSection_of_ne _ _ (formatAcceptanceCriteria_trim_ne responses)
  have hsplit : ("## Acceptance Criteria" : String).data
      = ("## " : String).data ++ ("Acceptance Criteria" : String).data := by rfl
  refine ⟨("# Feature: " ++ featureTitle ++ "\n\n"
      ++ formatSection "Overview" (getResponseValue responses "feature-overview")
      ++ formatSection "User Stories" (formatUserStories responses)
      ++ formatSection "Functional Requirements" (formatFunctionalRequirements responses)
      ++ formatSection "Edge Cases" (formatEdgeCases responses)
      ++ formatSection "UI/UX Requirements" (formatUiUxRequirements responses)
      ++ formatSection "Technical Constraints" (formatTechnicalConstraints responses)).data,
    ("\n\n" ++ jsTrim (formatAcceptanceCriteria responses) ++ "\n\n"
      ++ formatSection "Dependencies" (formatDependencies responses)
      ++ "---\n\n"
      ++ "*Generated by SpecCraft on " ++ dateStr ++ "*\n").data, ?_⟩
  simp only [generateMarkdown, hfs, hsplit, String.data_append, List.append_assoc,
    List.cons_append, List.nil_append]

/-- Witness for C9: on the empty response set the section body is the three
boilerplate bullets and the header is present in the document. -/
theorem spec_c9_witness :
    jsTrim (formatAcceptanceCriteria ([] : List QuestionResponse)) ≠ "" :=
  (spec_c9_acceptance_always_present [] "Title" "2025-01-01").2.1

/-- Claim C8 (amended): `formatSection` emits a header exactly when its body
is non-empty after trimming, and a session whose `error-scenarios`,
`edge-cases` and `validation-rules` answers are all empty (or absent)
produces a document identical to one with no Edge Cases section at all.
(The amendment adds `validation-rules`: its answer also feeds the Edge
Cases body, so the two answers named by the claim do not suffice.) -/
theorem spec_c8_empty_sections_amended :
    (∀ title content, formatSection title content = "" ↔ jsTrim content = "") ∧
    (∀ (responses : List QuestionResponse) (featureTitle dateStr : String),
      getResponseValue responses "error-scenarios" = "" →
      getResponseValue responses "edge-cases" = "" →
      getResponseValue responses "validation-rules" = "" →
      formatEdgeCases responses = "" ∧
      generateMarkdown responses featureTitle dateStr
        = generateMarkdownWithoutEdgeSection responses featureTitle dateStr) := by
  refine ⟨formatSection_eq_empty_iff, ?_⟩
  intro responses featureTitle dateStr h1 h2 h3
  have hec : formatEdgeCases responses = "" := by
    simp [formatEdgeCases, h1, h2, h3, joinSep]
  refine ⟨hec, ?_⟩
  have hfs : formatSection "Edge Cases" (formatEdgeCases responses) = "" := by
    rw [hec]; rfl
  unfold generateMarkdown generateMarkdownWithoutEdgeSection
  rw [hfs, str_append_empty]

/-- Witness for C8 (amended): the empty response set satisfies the
hypotheses and yields the edge-case-free document. -/
theorem spec_c8_witness :
    getResponseValue ([] : List QuestionResponse) "error-scenarios" = "" ∧
    generateMarkdown [] "Title" "2025-01-01"
      = generateMarkdownWithoutEdgeSection [] "Title" "2025-01-01" :=
  ⟨rfl, ((spec_c8_empty_sections_amended.2 [] "Title" "2025-01-01") rfl rfl rfl).2⟩

/-- Counterexample for C8: a reachable completed session whose
`edge-cases` and `error-scenarios` answers are both empty still renders an
`## Edge Cases` header, because its `validation-rules` answer is
non-empty. -/
theorem spec_c8_counterexample :
    Reachable engineValDone ∧
    engineValDone.isComplete = true ∧
    getResponseValue engineValDone.session.responses "edge-cases" = "" ∧
    getResponseValue engineValDone.session.responses "error-scenarios" = "" ∧
    ("## Edge Cases").data
      <:+: (generateMarkdown engineValDone.session.responses "T" "2025-01-01").data :=
  ⟨reachable_engineValDone, by rfl, by rfl, by rfl, by decide⟩
theorem avail_congr_responses (e₁ e₂ : QuestionnaireEngine)
    (hq : e₁.questions = e₂.questions)
    (hr : e₁.session.responses = e₂.session.responses) :
    getAvailableQuestions e₁ = getAvailableQuestions e₂ := by
  unfold QuestionnaireEngine.getAvailableQuestions
  rw [hq]
  refine List.filter_congr ?_
  intro q _
  cases hdep : q.dependsOn with
  | none => rw [shouldAsk_of_no_dep _ _ hdep, shouldAsk_of_no_dep _ _ hdep]
  | some dep =>
    rw [shouldAsk_some_dep _ _ _ hdep, shouldAsk_some_dep _ _ _ hdep, hr]

theorem withCursor_questions (e : QuestionnaireEngine) (i now : Nat) :
    (withCursor e i now).questions = e.questions := rfl

theorem withCursor_cursor (e : QuestionnaireEngine) (i now : Nat) :
    (withCursor e i now).session.currentQuestionIndex = i := rfl

theorem withCursor_flag (e : QuestionnaireEngine) (i now : Nat) :
    (withCursor e i now).session.isComplete = false := rfl

theorem withCursor_avail (e : QuestionnaireEngine) (i now : Nat) :
    getAvailableQuestions (withCursor e i now) = getAvailableQuestions e :=
  avail_congr_responses _ _ rfl rfl

theorem goToPreviousQuestion_eq_pos (e : QuestionnaireEngine) (now : Nat)
    (h : e.session.currentQuestionIndex > 0) :
    (e.goToPreviousQuestion now).1
      = withCursor e (e.session.currentQuestionIndex - 1) now := by
  unfold QuestionnaireEngine.goToPreviousQuestion
  rw [if_pos h]
  rfl

theorem goToPreviousQuestion_eq_zero (e : QuestionnaireEngine) (now : Nat)
    (h : ¬ e.session.currentQuestionIndex > 0) :
    (e.goToPreviousQuestion now).1 = e := by
  unfold QuestionnaireEngine.goToPreviousQuestion
  rw [if_neg h]

theorem goToQuestion_eq_found (e : QuestionnaireEngine) (questionId : String) (now i : Nat)
    (hf : (getAvailableQuestions e).findIdx? (fun q => q.id == questionId) = some i) :
    (e.goToQuestion questionId now).1 = withCursor e i now := by
  unfold QuestionnaireEngine.goToQuestion
  rw [hf]
  rfl

theorem goToQuestion_eq_notfound (e : QuestionnaireEngine) (questionId : String) (now : Nat)
    (hf : (getAvailableQuestions e).findIdx? (fun q => q.id == questionId) = none) :
    (e.goToQuestion questionId now).1 = e := by
  unfold QuestionnaireEngine.goToQuestion
  rw [hf]

theorem avail_of_base (e : QuestionnaireEngine)
    (hq : e.questions = sortQuestionsByOrder baseQuestions) :
    getAvailableQuestions e = baseQuestions.filter (shouldAskQuestion e.session) := by
  unfold QuestionnaireEngine.getAvailableQuestions
  rw [hq, sortedBase_eq]

theorem avail_len_ge (e : QuestionnaireEngine)
    (hq : e.questions = sortQuestionsByOrder baseQuestions) :
    20 ≤ (getAvailableQuestions e).length := by
  rw [avail_of_base e hq, avail_length_base]
  split <;> omega

theorem avail_len_le (e : QuestionnaireEngine)
    (hq : e.questions = sortQuestionsByOrder baseQuestions) :
    (getAvailableQuestions e).length ≤ 21 := by
  rw [avail_of_base e hq, avail_length_base]
  split <;> omega

theorem navInv_create (featureTitle featureDescription sessionId : String) (now : Nat) :
    NavInv (QuestionnaireEngine.create featureTitle featureDescription sessionId now) := by
  have hlen : (getAvailableQuestions
      (QuestionnaireEngine.create featureTitle featureDescription sessionId now)).length
      = 20 := rfl
  refine ⟨rfl, by rw [hlen]; exact Nat.zero_le 20, ?_⟩
  rw [hlen]
  constructor
  · intro hcon; exact absurd hcon (by simp [QuestionnaireEngine.create])
  · intro hcon
    exact absurd hcon (by
      show ¬ (20 ≤ (QuestionnaireEngine.create featureTitle featureDescription sessionId now).session.currentQuestionIndex)
      simp [QuestionnaireEngine.create])

theorem navInv_prev (e : QuestionnaireEngine) (now : Nat) (h : NavInv e) :
    NavInv ((e.goToPreviousQuestion now).1) := by
  obtain ⟨hq, hle, hiff⟩ := h
  by_cases hpos : e.session.currentQuestionIndex > 0
  · rw [goToPreviousQuestion_eq_pos e now hpos]
    have hlt : e.session.currentQuestionIndex - 1 < (getAvailableQuestions e).length := by
      cases hfe : e.session.isComplete
      · have : ¬ ((getAvailableQuestions e).length ≤ e.session.currentQuestionIndex) := by
          intro hcon
          exact absurd (hiff.mpr hcon) (by simp [hfe])
        omega
      · have := hiff.mp hfe
        omega
    refine ⟨?_, ?_, ?_⟩
    · rw [withCursor_questions]; exact hq
    · rw [withCursor_cursor, withCursor_avail]; omega
    · rw [withCursor_flag, withCursor_avail, withCursor_cursor]
      simp only [Bool.false_eq_true, false_iff]
      omega
  · rw [goToPreviousQuestion_eq_zero e now hpos]
    exact ⟨hq, hle, hiff⟩

theorem navInv_goto (e : QuestionnaireEngine) (questionId : String) (now : Nat)
    (h : NavInv e) : NavInv ((e.goToQuestion questionId now).1) := by
  obtain ⟨hq, hle, hiff⟩ := h
  cases hf : (getAvailableQuestions e).findIdx? (fun q => q.id == questionId) with
  | none =>
    rw [goToQuestion_eq_notfound e questionId now hf]
    exact ⟨hq, hle, hiff⟩
  | some i =>
    have hilt : i < (getAvailableQuestions e).length := findIdx?_some_lt _ _ _ hf
    rw [goToQuestion_eq_found e questionId now i hf]
    refine ⟨?_, ?_, ?_⟩
    · rw [withCursor_questions]; exact hq
    · rw [withCursor_cursor, withCursor_avail]; omega
    · rw [withCursor_flag, withCursor_avail, withCursor_cursor]
      simp only [Bool.false_eq_true, false_iff]
      omega

theorem navInv_answer (e : QuestionnaireEngine) (v : Value) (now : Nat)
    (e' : QuestionnaireEngine) (h : NavInv e)
    (hok : e.answerCurrentQuestion v now = .ok e') : NavInv e' := by
  obtain ⟨hq, hle, hiff⟩ := h
  obtain ⟨q, hcur, hval, heq⟩ := answer_ok_inv hok
  subst heq
  obtain ⟨hq', hcur', hresp'⟩ := answerRecord_fields e q v now
  have hic := answerRecord_isComplete e q v now
  have hqbase : (answerRecord e q v now).questions = sortQuestionsByOrder baseQuestions :=
    hq'.trans hq
  have hlt : e.session.currentQuestionIndex < (getAvailableQuestions e).length := by
    unfold QuestionnaireEngine.getCurrentQuestion at hcur
    rcases List.getElem?_eq_some.mp hcur with ⟨hbound, _⟩
    exact hbound
  have hflag : e.session.isComplete = false := by
    cases hfe : e.session.isComplete
    · rfl
    · have := hiff.mp hfe
      omega
  have hlen' : e.session.currentQuestionIndex + 1
      ≤ (getAvailableQuestions (answerRecord e q v now)).length := by
    by_cases hqid : q.id = "sensitive-data"
    · have h20 : 20 ≤ (getAvailableQuestions (answerRecord e q v now)).length :=
        avail_len_ge _ hqbase
      have h21 : (getAvailableQuestions e).length ≤ 21 := avail_len_le e hq
      rcases Nat.lt_or_ge e.session.currentQuestionIndex 20 with hc19 | hc20
      · omega
      · have hc : e.session.currentQuestionIndex = 20 := by omega
        have hlen21 : (getAvailableQuestions e).length = 21 := by omega
        have hsec : shouldAskQuestion e.session securityRequirementsQuestion = true := by
          rw [avail_of_base e hq, avail_length_base] at hlen21
          cases hsec' : shouldAskQuestion e.session securityRequirementsQuestion
          · rw [if_neg (by simp [hsec'])] at hlen21
            omega
          · rfl
        have havail : getAvailableQuestions e
            = basePre ++ [securityRequirementsQuestion] ++ basePost := by
          rw [avail_of_base e hq, filter_base_struct, if_pos hsec]
        have h20q : (getAvailableQuestions e)[20]? = some q := by
          unfold QuestionnaireEngine.getCurrentQuestion at hcur
          rw [hc] at hcur
          exact hcur
        rw [havail] at h20q
        have hlit : (basePre ++ [securityRequirementsQuestion] ++ basePost)[20]?
            = some successCriteriaQuestion := by rfl
        rw [hlit] at h20q
        injection h20q with hqe
        rw [← hqe] at hqid
        exact absurd hqid (by decide)
    · have hfind : (answerRecord e q v now).session.responses.find?
          (fun r => r.questionId == "sensitive-data")
          = e.session.responses.find? (fun r => r.questionId == "sensitive-data") := by
        rw [hresp']
        refine find?_filter_append _ _ _ _ ?_ ?_
        · intro x hx
          have hxe := eq_of_beq hx
          have : x.questionId ≠ q.id := by
            rw [hxe]
            exact fun hcon => hqid hcon.symm
          simpa using this
        · simpa using hqid
      have havail_eq : getAvailableQuestions (answerRecord e q v now)
          = getAvailableQuestions e := by
        rw [avail_of_base _ hqbase, avail_of_base e hq,
          filter_base_struct, filter_base_struct, shouldAsk_sec_congr hfind]
      rw [havail_eq]
      omega
  refine ⟨hqbase, ?_, ?_⟩
  · rw [hcur']
    exact hlen'
  · rw [hic, hcur']
    split
    case isTrue hcond => simp [hcond]
    case isFalse hcond => simp [hflag, hcond]

theorem reachableNav_navInv (e : QuestionnaireEngine) (h : ReachableNav e) : NavInv e := by
  induction h with
  | create featureTitle featureDescription sessionId now =>
    exact navInv_create featureTitle featureDescription sessionId now
  | answer e v now e' _ hok ih => exact navInv_answer e v now e' ih hok
  | previous e now _ ih => exact navInv_prev e now ih
  | goto e questionId now _ ih => exact navInv_goto e questionId now ih

/-- Claim C3 (amended): for every state reachable via create,
answerCurrentQuestion, goToPreviousQuestion and goToQuestion,
`isComplete()` is true exactly when the cursor has reached the length of
the freshly recomputed eligible sequence.  (`addDynamicQuestion` is
excluded: it can enlarge the eligible sequence without clearing the stored
flag, see the counterexample.) -/
theorem spec_c3_completion_amended (e : QuestionnaireEngine) (h : ReachableNav e) :
    QuestionnaireEngine.isComplete e = true ↔
      (getAvailableQuestions e).length ≤ e.session.currentQuestionIndex :=
  (reachableNav_navInv e h).2.2

/-- Witness for C3 (amended): the equivalence instantiated on a concrete
reachable completed state. -/
theorem spec_c3_witness :
    QuestionnaireEngine.isComplete engineSkipDone = true ↔
      (getAvailableQuestions engineSkipDone).length
        ≤ engineSkipDone.session.currentQuestionIndex :=
  spec_c3_completion_amended engineSkipDone reachableNav_engineSkipDone

/-- Counterexample for C3: after `addDynamicQuestion` injects an eligible
question into a completed session, `isComplete()` still returns true while
the cursor is strictly below the length of the recomputed eligible
sequence. -/
theorem spec_c3_counterexample :
    Reachable engineStaleFlag ∧
    QuestionnaireEngine.isComplete engineStaleFlag = true ∧
    engineStaleFlag.session.currentQuestionIndex
      < (getAvailableQuestions engineStaleFlag).length :=
  ⟨reachable_engineStaleFlag, by rfl, by decide⟩

theorem reachable_nodup (e : QuestionnaireEngine) (h : Reachable e) :
    (e.session.responses.map (fun r => r.questionId)).Nodup := by
  induction h with
  | create featureTitle featureDescription sessionId now =>
    simp [QuestionnaireEngine.create]
  | answer e v now e' _ hok ih =>
    obtain ⟨q, hq, hval, heq⟩ := answer_ok_inv hok
    subst heq
    rw [(answerRecord_fields e q v now).2.2]
    rw [List.map_append, List.nodup_append]
    refine ⟨List.Nodup.sublist ((List.filter_sublist _).map _) ih, by simp, ?_⟩
    intro a ha hb
    simp only [List.map_cons, List.map_nil, List.mem_singleton] at hb
    subst hb
    simp only [List.mem_map, List.mem_filter] at ha
    obtain ⟨r, ⟨_, hrq⟩, hrid⟩ := ha
    rw [hrid] at hrq
    simp at hrq
  | previous e now _ ih =>
    rw [(goToPreviousQuestion_fields e now).2]
    exact ih
  | goto e questionId now _ ih =>
    rw [(goToQuestion_fields e questionId now).2]
    exact ih
  | addDyn e q now _ ih =>
    rw [addDynamicQuestion_responses]
    exact ih

/-- Claim C4: every reachable session holds at most one response per
question id (the projected id list is duplicate-free), and a successful
answer leaves exactly one response for the answered question id — the new
value and timestamp. -/
theorem spec_c4_unique_answer_per_id (e : QuestionnaireEngine) (he : Reachable e) :
    (e.session.responses.map (fun r => r.questionId)).Nodup ∧
    (∀ (v : Value) (now : Nat) (e' : QuestionnaireEngine) (q : Question),
      e.getCurrentQuestion = some q →
      e.answerCurrentQuestion v now = .ok e' →
      e'.session.responses.filter (fun r => r.questionId == q.id)
        = [⟨q.id, v, now⟩] ∧
      (e'.session.responses.map (fun r => r.questionId)).Nodup) := by
  refine ⟨reachable_nodup e he, ?_⟩
  intro v now e' q hq hok
  refine ⟨?_, reachable_nodup e' (Reachable.answer e v now e' he hok)⟩
  obtain ⟨q', hq', hval, heq⟩ := answer_ok_inv hok
  rw [hq] at hq'
  injection hq' with hqq
  subst hqq
  subst heq
  rw [(answerRecord_fields e q v now).2.2, List.filter_append]
  have h1 : (e.session.responses.filter (fun r => r.questionId != q.id)).filter
      (fun r => r.questionId == q.id) = [] := by
    rw [List.filter_filter]
    refine List.filter_eq_nil_iff.mpr ?_
    intro a _
    cases hb : (a.questionId == q.id) <;> simp [hb]
    exact eq_of_beq hb
  have h2 : [(⟨q.id, v, now⟩ : QuestionResponse)].filter
      (fun r => r.questionId == q.id) = [⟨q.id, v, now⟩] := by
    simp [List.filter]
  rw [h1, h2, List.nil_append]

/-- Witness for C4: the id list of a concrete reachable session is
duplicate-free. -/
theorem spec_c4_witness :
    (engineSkipDone.session.responses.map (fun r => r.questionId)).Nodup :=
  (spec_c4_unique_answer_per_id engineSkipDone reachable_engineSkipDone).1

/-- Claim C5: `getAvailableQuestions()` keeps exactly the catalog questions
(in catalog order, a sublist) that have no dependency rule or whose rule's
referenced question has a recorded response strictly equal to the rule
value; and in the dependency-unlock scenario the dependent question is
absent before its flag question is answered, present after it is answered
`true`, and absent again after it is re-answered `false` via
`goToQuestion` plus a fresh answer. -/
theorem spec_c5_eligibility_filter :
    (∀ (e : QuestionnaireEngine) (q : Question),
      q ∈ getAvailableQuestions e ↔ q ∈ e.questions ∧ shouldAskQuestion e.session q = true) ∧
    (∀ (s : QuestionnaireSession) (q : Question),
      shouldAskQuestion s q = true ↔
        (q.dependsOn = none ∨
         ∃ dep r, q.dependsOn = some dep ∧
           s.responses.find? (fun rr => rr.questionId == dep.questionId) = some r ∧
           valueEqDep r.value dep.value = true)) ∧
    (∀ e : QuestionnaireEngine, (getAvailableQuestions e).Sublist e.questions) ∧
    (Reachable engineDyn0 ∧ dynDependentQuestion ∉ getAvailableQuestions engineDyn0) ∧
    (Reachable engineDyn1 ∧ dynDependentQuestion ∈ getAvailableQuestions engineDyn1) ∧
    (Reachable engineDyn2 ∧ dynDependentQuestion ∉ getAvailableQuestions engineDyn2) := by
  refine ⟨?_, ?_, ?_, ⟨reachable_engineDyn0, by decide⟩,
    ⟨reachable_engineDyn1, by decide⟩, ⟨reachable_engineDyn2, by decide⟩⟩
  · intro e q
    exact List.mem_filter
  · intro s q
    cases hdep : q.dependsOn with
    | none =>
      rw [shouldAsk_of_no_dep s q hdep]
      simp [hdep]
    | some dep =>
      rw [shouldAsk_some_dep s q dep hdep]
      cases hf : s.responses.find? (fun rr => rr.questionId == dep.questionId) with
      | none => simp [hdep, hf]
      | some r => simp [hdep, hf]
  · intro e
    exact List.filter_sublist e.questions

/-- Witness for C5: the membership characterisation instantiated on a
concrete engine and question. -/
theorem spec_c5_witness :
    securityRequirementsQuestion ∈ getAvailableQuestions engineDyn1 ↔
      securityRequirementsQuestion ∈ engineDyn1.questions ∧
        shouldAskQuestion engineDyn1.session securityRequirementsQuestion = true :=
  spec_c5_eligibility_filter.1 engineDyn1 securityRequirementsQuestion
